import Mathlib

/-!
Verification of the cv-monitoring daily-report system.

Shallow embedding of the repository's Python sources:
  * `metrics_collector.py` — `MetricsCollector.get_yesterday_metrics`,
    `get_current_pipeline_status`, `get_full_report_data`;
  * `daily_report.py` — `main` (exit-code contract);
  * `email_sender.py` — the status-tier logic of
    `EmailSender.generate_html_report`;
  * `cv_event_tracker.py` — `log_cv_event`, `log_bulk_events`.

Modelling conventions:
  * The `cv_processing_log` table is a `List LogRow`; `DATE(timestamp)` is
    `timestamp / 86400` on an abstract instant scale.
  * SQL `GROUP BY event_type` with `COUNT(*)` is `groupCounts`; SQL
    `ORDER BY timestamp DESC LIMIT n` is insertion sort by descending
    timestamp followed by `List.take`.
  * Python floats are modelled as exact rationals (`ℚ`); the derivation
    rules under verification are algebraic, and all threshold constants
    compared against are integers, exactly representable.
  * Fallible database primitives are driven by small oracle records
    (one `Bool` per `connect`/`execute` call in source order); a raised
    exception is `Except.error`, and traces of connection events record
    resource usage.
-/

/-- One row of the `cv_processing_log` table (schema used by the
`INSERT` in `cv_event_tracker.py` and the `SELECT`s in
`metrics_collector.py`). -/
structure LogRow where
  timestamp : ℕ
  email : String
  event_type : String
  status : String
  error_message : Option String
  user_id : Option String
deriving DecidableEq, Repr

/-- `DATE(timestamp)`: the calendar day of an instant. -/
def dateOfTs (t : ℕ) : ℕ := t / 86400

/-- The projection `SELECT email, event_type, error_message, timestamp`
used by the failed-details query in `get_yesterday_metrics`. -/
structure FailedRow where
  email : String
  event_type : String
  error_message : Option String
  timestamp : ℕ
deriving DecidableEq, Repr

/-- Column projection of a log row for the failed-details query. -/
def toFailedRow (r : LogRow) : FailedRow :=
  { email := r.email, event_type := r.event_type,
    error_message := r.error_message, timestamp := r.timestamp }

/-- Descending-timestamp order used to model `ORDER BY timestamp DESC`. -/
def tsGe (a b : LogRow) : Prop := b.timestamp ≤ a.timestamp

instance : DecidableRel tsGe := fun a b => Nat.decLe b.timestamp a.timestamp

instance : IsTotal LogRow tsGe := ⟨fun a b => Nat.le_total b.timestamp a.timestamp⟩

instance : IsTrans LogRow tsGe := ⟨fun _ _ _ h1 h2 => Nat.le_trans h2 h1⟩

/-- The grouped-count query of `get_yesterday_metrics`
(`SELECT event_type, COUNT(*) ... WHERE DATE(timestamp) = day GROUP BY
event_type`): one `(event_type, count)` pair per distinct event type
among the day's rows. -/
def groupCounts (db : List LogRow) (day : ℕ) : List (String × ℕ) :=
  let rows := db.filter (fun r => dateOfTs r.timestamp == day)
  (rows.map (·.event_type)).dedup.map
    (fun t => (t, (rows.filter (fun r => r.event_type == t)).length))

/-- The `WHERE` clause of the failed-details query:
`DATE(timestamp) = day AND status = 'failed'` — no condition on
`event_type`. -/
def isFailedOn (day : ℕ) (r : LogRow) : Bool :=
  dateOfTs r.timestamp == day && r.status == "failed"

/-- The failed-details query of `get_yesterday_metrics`
(`SELECT email, event_type, error_message, timestamp ... WHERE
DATE(timestamp) = day AND status = 'failed' ORDER BY timestamp DESC
LIMIT limit`). -/
def failedQuery (db : List LogRow) (day limit : ℕ) : List FailedRow :=
  ((List.insertionSort tsGe (db.filter (isFailedOn day))).take limit).map
    toFailedRow

/-- The metrics dictionary built by `get_yesterday_metrics`
(`metrics_collector.py` lines 61-72 fix exactly these keys). -/
structure DailyMetrics where
  report_date : ℕ
  cvs_received : ℕ
  cvs_rejected : ℕ
  cvs_parsed_success : ℕ
  cvs_parsing_failed : ℕ
  cvs_insertion_failed : ℕ
  total_failed : ℕ
  cvs_in_progress : ℤ
  success_rate : ℚ
  failed_emails : List FailedRow
deriving DecidableEq, Repr

/-- The initial metrics dictionary (all counters zero,
`success_rate = 0.0`, empty failure list). -/
def init_metrics (day : ℕ) : DailyMetrics :=
  { report_date := day, cvs_received := 0, cvs_rejected := 0,
    cvs_parsed_success := 0, cvs_parsing_failed := 0,
    cvs_insertion_failed := 0, total_failed := 0, cvs_in_progress := 0,
    success_rate := 0, failed_emails := [] }

/-- One iteration of the `for row in results` loop of
`get_yesterday_metrics` (the `if`/`elif` chain on `event_type`). -/
def applyCountRow (m : DailyMetrics) (row : String × ℕ) : DailyMetrics :=
  if row.1 = "cv_received" then { m with cvs_received := row.2 }
  else if row.1 = "cv_rejected" then { m with cvs_rejected := row.2 }
  else if row.1 = "cv_parsed_success" then { m with cvs_parsed_success := row.2 }
  else if row.1 = "cv_parsing_failed" then { m with cvs_parsing_failed := row.2 }
  else if row.1 = "cv_insertion_failed" then { m with cvs_insertion_failed := row.2 }
  else m

/-- The pure derivation core of `get_yesterday_metrics`
(`metrics_collector.py` lines 61-144), applied to the two query
results: fold the grouped counts into the dictionary, then compute
`total_failed`, `success_rate`, `cvs_in_progress`, and attach the
failed-details rows. -/
def aggregate (counts : List (String × ℕ)) (failedRows : List FailedRow)
    (day : ℕ) : DailyMetrics :=
  let m0 := counts.foldl applyCountRow (init_metrics day)
  let m1 := { m0 with
    total_failed := m0.cvs_rejected + m0.cvs_parsing_failed + m0.cvs_insertion_failed }
  let total_completed :=
    m1.cvs_parsed_success + m1.cvs_parsing_failed + m1.cvs_insertion_failed
  let m2 :=
    if 0 < total_completed then
      { m1 with success_rate := (m1.cvs_parsed_success : ℚ) / total_completed * 100 }
    else if 0 < m1.cvs_received then { m1 with success_rate := 100 }
    else m1
  let m3 := { m2 with
    cvs_in_progress :=
      max 0 ((m2.cvs_received : ℤ) - m2.cvs_parsed_success - m2.total_failed) }
  { m3 with failed_emails := failedRows }

/-- `get_yesterday_metrics` as a pure function of the log table, the
target day and the configured failed-details cap (the two SQL queries
composed with the derivation core). -/
def yesterday_metrics (db : List LogRow) (day limit : ℕ) : DailyMetrics :=
  aggregate (groupCounts db day) (failedQuery db day limit) day

example :
    (aggregate [("cv_received", 100), ("cv_parsed_success", 90), ("cv_rejected", 3),
      ("cv_parsing_failed", 4), ("cv_insertion_failed", 3)] [] 0).total_failed = 10 := by
  decide

example :
    (aggregate [("cv_received", 100), ("cv_parsed_success", 90), ("cv_rejected", 3),
      ("cv_parsing_failed", 4), ("cv_insertion_failed", 3)] [] 0).success_rate = 9000 / 97 := by
  simp +decide only [aggregate, applyCountRow, init_metrics, List.foldl]
  norm_num

example :
    (aggregate [("cv_received", 5), ("cv_parsed_success", 6)] [] 0).cvs_in_progress = 0 := by
  decide

/-- Status tier of `EmailSender.generate_html_report`
(`email_sender.py` lines 56-71): the `status_text` chosen from
`success_rate` by the fixed thresholds 95 / 85 / 70. -/
def status_text (success_rate : ℚ) : String :=
  if 95 ≤ success_rate then "Excellent"
  else if 85 ≤ success_rate then "Good"
  else if 70 ≤ success_rate then "Needs Attention"
  else "Critical"

/-- The dictionary built by `get_current_pipeline_status`. -/
structure PipelineStatus where
  unprocessed_cvs : ℕ
  active_batches : ℕ
  pending_insertions : ℕ
deriving DecidableEq, Repr

/-- Abstract contents of the three tables read by
`get_current_pipeline_status` (`users`, `batch_tracking`,
`parsed_emails`): only the three counts the queries return matter. -/
structure PipelineTables where
  unprocessed : ℕ
  activeBatches : ℕ
  pendingInsertions : ℕ
deriving DecidableEq, Repr

/-- Connection-level events traced during a run, for the resource
model (`get_db_connection` / `cursor.execute` / `connection.close`). -/
inductive DBEvent
  | openConn
  | query (label : String)
  | closeConn
deriving DecidableEq, Repr

/-- The distinguishable error raised on a database failure
(`mysql.connector.Error`, re-raised by the collector). -/
inductive DBErr
  | err
deriving DecidableEq, Repr

/-- Failure oracle for `get_yesterday_metrics`: one flag per fallible
database call, in source order (connect, grouped-count query,
failed-details query). -/
structure YMOracle where
  connectOk : Bool
  countsOk : Bool
  failedOk : Bool
deriving DecidableEq, Repr

/-- Failure oracle for `get_current_pipeline_status`: connect plus its
three count queries, in source order. -/
structure PSOracle where
  connectOk : Bool
  unprocessedOk : Bool
  batchesOk : Bool
  pendingOk : Bool
deriving DecidableEq, Repr

/-- `MetricsCollector.get_yesterday_metrics` with its control flow:
opens a connection, runs the two queries, and on any database error
re-raises (`except Error ... raise`); the `finally` block closes the
connection whenever one was established. Returns the outcome together
with the trace of connection events. -/
def get_yesterday_metrics (db : List LogRow) (day limit : ℕ) (o : YMOracle) :
    Except DBErr DailyMetrics × List DBEvent :=
  if o.connectOk = false then (Except.error DBErr.err, [])
  else if o.countsOk = false then
    (Except.error DBErr.err, [DBEvent.openConn, DBEvent.closeConn])
  else if o.failedOk = false then
    (Except.error DBErr.err,
      [DBEvent.openConn, DBEvent.query "groupedCounts", DBEvent.closeConn])
  else
    (Except.ok (yesterday_metrics db day limit),
      [DBEvent.openConn, DBEvent.query "groupedCounts",
        DBEvent.query "failedDetails", DBEvent.closeConn])

/-- `MetricsCollector.get_current_pipeline_status`: its own connection,
three count queries, re-raise on error, close in `finally`. -/
def get_current_pipeline_status (t : PipelineTables) (o : PSOracle) :
    Except DBErr PipelineStatus × List DBEvent :=
  if o.connectOk = false then (Except.error DBErr.err, [])
  else if o.unprocessedOk = false then
    (Except.error DBErr.err, [DBEvent.openConn, DBEvent.closeConn])
  else if o.batchesOk = false then
    (Except.error DBErr.err,
      [DBEvent.openConn, DBEvent.query "unprocessedCvs", DBEvent.closeConn])
  else if o.pendingOk = false then
    (Except.error DBErr.err,
      [DBEvent.openConn, DBEvent.query "unprocessedCvs",
        DBEvent.query "activeBatches", DBEvent.closeConn])
  else
    (Except.ok
      { unprocessed_cvs := t.unprocessed, active_batches := t.activeBatches,
        pending_insertions := t.pendingInsertions },
      [DBEvent.openConn, DBEvent.query "unprocessedCvs",
        DBEvent.query "activeBatches", DBEvent.query "pendingInsertions",
        DBEvent.closeConn])

/-- The merged dictionary returned by
`MetricsCollector.get_full_report_data`: the metrics keys plus
`pipeline_status` and `generated_at`. -/
structure ReportData where
  metrics : DailyMetrics
  pipeline_status : PipelineStatus
  generated_at : ℕ
deriving DecidableEq, Repr

/-- `MetricsCollector.get_full_report_data`: calls
`get_yesterday_metrics` then `get_current_pipeline_status`; an
exception from either propagates (the second call never happens after
the first fails). The trace concatenates the connection events of the
two calls. -/
def get_full_report_data (db : List LogRow) (t : PipelineTables)
    (day limit now : ℕ) (oy : YMOracle) (op : PSOracle) :
    Except DBErr ReportData × List DBEvent :=
  match get_yesterday_metrics db day limit oy with
  | (Except.error e, tr) => (Except.error e, tr)
  | (Except.ok m, tr1) =>
    match get_current_pipeline_status t op with
    | (Except.error e, tr2) => (Except.error e, tr1 ++ tr2)
    | (Except.ok s, tr2) =>
      (Except.ok { metrics := m, pipeline_status := s, generated_at := now },
        tr1 ++ tr2)

/-- A Python value stored in the report dictionary. -/
inductive PyVal
  | pyInt (n : ℤ)
  | pyRat (q : ℚ)
  | pyRows (l : List FailedRow)
  | pyStatus (s : PipelineStatus)
deriving DecidableEq, Repr

/-- Dictionary subscription `report_data[key]` on the record returned
by `get_full_report_data`: `some` for exactly the keys the collector
puts in the dictionary (`metrics_collector.py` lines 61-72 and
232-236), `none` (a `KeyError`) for every other key. -/
def reportLookup (rd : ReportData) (key : String) : Option PyVal :=
  if key = "report_date" then some (PyVal.pyInt rd.metrics.report_date)
  else if key = "cvs_received" then some (PyVal.pyInt rd.metrics.cvs_received)
  else if key = "cvs_rejected" then some (PyVal.pyInt rd.metrics.cvs_rejected)
  else if key = "cvs_parsed_success" then
    some (PyVal.pyInt rd.metrics.cvs_parsed_success)
  else if key = "cvs_parsing_failed" then
    some (PyVal.pyInt rd.metrics.cvs_parsing_failed)
  else if key = "cvs_insertion_failed" then
    some (PyVal.pyInt rd.metrics.cvs_insertion_failed)
  else if key = "total_failed" then some (PyVal.pyInt rd.metrics.total_failed)
  else if key = "cvs_in_progress" then
    some (PyVal.pyInt rd.metrics.cvs_in_progress)
  else if key = "success_rate" then some (PyVal.pyRat rd.metrics.success_rate)
  else if key = "failed_emails" then some (PyVal.pyRows rd.metrics.failed_emails)
  else if key = "pipeline_status" then some (PyVal.pyStatus rd.pipeline_status)
  else if key = "generated_at" then some (PyVal.pyInt rd.generated_at)
  else none

/-- `main` of `daily_report.py` as a function from the run's
environment to the process exit code. Inputs: whether
`Config.validate_config` succeeds, the outcome of
`get_full_report_data` (an exception or a report record), whether
`EmailSender.send_report` returns `True`, and whether a
`KeyboardInterrupt` arrives during the `try` block. Control flow of
the source: interrupt handler exits 130; invalid configuration exits 1;
a propagated exception (database error, or the `KeyError` raised by the
summary logging when it subscripts the missing keys
`activity_updated` / `activity_update_failed`) reaches the generic
handler and exits 1; a `False` from the sender exits 1; otherwise
exit 0. -/
def daily_report_main (configValid : Bool) (collect : Except DBErr ReportData)
    (sendOk : Bool) (interrupted : Bool) : ℕ :=
  if interrupted then 130
  else if configValid = false then 1
  else
    match collect with
    | Except.error _ => 1
    | Except.ok rd =>
      match reportLookup rd "activity_updated" with
      | none => 1
      | some _ =>
        match reportLookup rd "activity_update_failed" with
        | none => 1
        | some _ => if sendOk then 0 else 1

/-- Arguments of one event-write call (`log_cv_event` parameters /
one dictionary of the `log_bulk_events` list). -/
structure EventArgs where
  email : String
  event_type : String
  status : String
  user_id : Option String
  error_message : Option String
deriving DecidableEq, Repr

/-- The `valid_events` list of `log_cv_event`
(`cv_event_tracker.py` lines 76-84). -/
def valid_events : List String :=
  ["cv_received", "cv_rejected", "cv_parsed_success", "cv_parsing_failed",
    "cv_insertion_failed", "activity_updated", "activity_update_failed"]

/-- A Python exception escaping a database primitive inside the
tracker's `try` block (`mysql.connector.Error` or any other
exception). -/
inductive PyExc
  | dbErr
  | otherErr
deriving DecidableEq, Repr

/-- Outcome of the connect / execute / commit sequence of one tracker
call: everything succeeds, the connect raises, or a later statement
raises (in which case nothing is committed). -/
inductive DBOutcome
  | ok
  | connectFail
  | execFail
deriving DecidableEq, Repr

/-- The row inserted for one event
(`INSERT INTO cv_processing_log (timestamp, email, event_type, status,
error_message, user_id) VALUES (NOW(), ...)`). -/
def mkRow (now : ℕ) (a : EventArgs) : LogRow :=
  { timestamp := now, email := a.email, event_type := a.event_type,
    status := a.status, error_message := a.error_message,
    user_id := a.user_id }

/-- The `try` block of `log_cv_event`: validate `event_type` against
`valid_events`, validate `status` against `success`/`failed` (each
invalid value returns `False` with nothing persisted), then connect,
insert and commit — any database failure raises out of the block. -/
def log_cv_event_try (a : EventArgs) (db : List LogRow) (now : ℕ)
    (oc : DBOutcome) : Except PyExc (Bool × List LogRow) :=
  if (a.event_type ∈ valid_events : Bool) = false then Except.ok (false, db)
  else if (a.status ∈ ["success", "failed"] : Bool) = false then
    Except.ok (false, db)
  else
    match oc with
    | DBOutcome.ok => Except.ok (true, db ++ [mkRow now a])
    | DBOutcome.connectFail => Except.error PyExc.dbErr
    | DBOutcome.execFail => Except.error PyExc.dbErr

/-- `log_cv_event` of `cv_event_tracker.py`: the `try` block wrapped in
the catch-all handlers (`except Error` and `except Exception` both
return `False`), so the caller always receives a boolean and the
updated table, never an exception. -/
def log_cv_event (a : EventArgs) (db : List LogRow) (now : ℕ)
    (oc : DBOutcome) : Bool × List LogRow :=
  match log_cv_event_try a db now oc with
  | Except.ok r => r
  | Except.error _ => (false, db)

/-- The `try` block of `log_bulk_events`, with its trace of connection
events: an empty event list returns `True` before any connection is
attempted; otherwise connect, `executemany` every row unvalidated, and
commit — a connect failure raises before any connection exists, a
later failure raises after open (the `finally` still closes). -/
def log_bulk_events_run (events : List EventArgs) (db : List LogRow)
    (now : ℕ) (oc : DBOutcome) :
    Except PyExc (Bool × List LogRow) × List DBEvent :=
  if events.isEmpty then (Except.ok (true, db), [])
  else
    match oc with
    | DBOutcome.ok =>
      (Except.ok (true, db ++ events.map (mkRow now)),
        [DBEvent.openConn, DBEvent.query "executemany", DBEvent.closeConn])
    | DBOutcome.connectFail => (Except.error PyExc.dbErr, [])
    | DBOutcome.execFail =>
      (Except.error PyExc.dbErr, [DBEvent.openConn, DBEvent.closeConn])

/-- `log_bulk_events` of `cv_event_tracker.py`: the `try` block wrapped
in the catch-all handlers, so every exception becomes a `False`
return. -/
def log_bulk_events (events : List EventArgs) (db : List LogRow) (now : ℕ)
    (oc : DBOutcome) : Bool × List LogRow × List DBEvent :=
  match log_bulk_events_run events db now oc with
  | (Except.ok (b, d), tr) => (b, d, tr)
  | (Except.error _, tr) => (false, db, tr)

/-- The count-loop body never changes `success_rate`. -/
lemma foldl_applyCountRow_success_rate (l : List (String × ℕ)) (m : DailyMetrics) :
    (l.foldl applyCountRow m).success_rate = m.success_rate := by
  induction l generalizing m with
  | nil => rfl
  | cons hd tl ih =>
    rw [List.foldl_cons, ih]
    unfold applyCountRow
    split_ifs <;> rfl

/-- The aggregation keeps the failed-details rows it was given. -/
lemma aggregate_failed_emails (counts : List (String × ℕ))
    (rows : List FailedRow) (day : ℕ) :
    (aggregate counts rows day).failed_emails = rows := by
  simp only [aggregate]

/-- C1: for every grouped event-count input, the success rate of the
produced record follows the three-case rule of the source: with
`total_completed = cvs_parsed_success + cvs_parsing_failed +
cvs_insertion_failed`, a positive `total_completed` gives
`cvs_parsed_success / total_completed * 100`, otherwise a positive
`cvs_received` gives `100.0`, otherwise `0.0`. -/
theorem success_rate_three_case_rule (counts : List (String × ℕ))
    (rows : List FailedRow) (day : ℕ) (m : DailyMetrics)
    (hm : m = aggregate counts rows day) (tc : ℕ)
    (htc : tc = m.cvs_parsed_success + m.cvs_parsing_failed + m.cvs_insertion_failed) :
    (0 < tc → m.success_rate = (m.cvs_parsed_success : ℚ) / tc * 100) ∧
    (tc = 0 → 0 < m.cvs_received → m.success_rate = 100) ∧
    (tc = 0 → m.cvs_received = 0 → m.success_rate = 0) := by
  subst hm htc
  simp only [aggregate]
  split_ifs with h1 h2
  · dsimp only at h1 ⊢
    refine ⟨fun _ => rfl, ?_, ?_⟩ <;> · intro h _; omega
  · dsimp only at h1 h2 ⊢
    refine ⟨fun h => absurd h h1, fun _ _ => rfl, ?_⟩
    intro _ h; omega
  · dsimp only at h1 h2 ⊢
    refine ⟨fun h => absurd h h1, fun _ h => absurd h h2, fun _ _ => ?_⟩
    rw [foldl_applyCountRow_success_rate]
    rfl

/-- Witness for C1 at the spec's boundary example
`cvs_parsed_success = 8, cvs_parsing_failed = 1,
cvs_insertion_failed = 1`. -/
theorem success_rate_three_case_rule_witness :
    (aggregate [("cv_parsed_success", 8), ("cv_parsing_failed", 1),
      ("cv_insertion_failed", 1)] [] 0).success_rate = 80 := by
  have h := (success_rate_three_case_rule
    [("cv_parsed_success", 8), ("cv_parsing_failed", 1), ("cv_insertion_failed", 1)]
    [] 0 _ rfl 10 (by decide)).1 (by decide)
  rw [h]
  have h8 : (aggregate [("cv_parsed_success", 8), ("cv_parsing_failed", 1),
      ("cv_insertion_failed", 1)] [] 0).cvs_parsed_success = 8 := by decide
  rw [h8]
  norm_num

/-- C3: every record the aggregator constructs satisfies
`total_failed = cvs_rejected + cvs_parsing_failed +
cvs_insertion_failed`. -/
theorem total_failed_invariant (counts : List (String × ℕ))
    (rows : List FailedRow) (day : ℕ) :
    (aggregate counts rows day).total_failed =
      (aggregate counts rows day).cvs_rejected +
        (aggregate counts rows day).cvs_parsing_failed +
        (aggregate counts rows day).cvs_insertion_failed := by
  simp only [aggregate]
  split_ifs <;> rfl

/-- C4: `cvs_in_progress` equals
`max 0 (cvs_received - cvs_parsed_success - total_failed)`, hence is
never negative; in particular `cvs_received = 5,
cvs_parsed_success = 6, total_failed = 0` clamps to `0`. -/
theorem cvs_in_progress_clamped :
    (∀ (counts : List (String × ℕ)) (rows : List FailedRow) (day : ℕ),
      (aggregate counts rows day).cvs_in_progress =
        max 0 (((aggregate counts rows day).cvs_received : ℤ) -
          (aggregate counts rows day).cvs_parsed_success -
          (aggregate counts rows day).total_failed) ∧
      0 ≤ (aggregate counts rows day).cvs_in_progress) ∧
    (aggregate [("cv_received", 5), ("cv_parsed_success", 6)] []
      0).cvs_in_progress = 0 := by
  refine ⟨fun counts rows day => ?_, by decide⟩
  have h : (aggregate counts rows day).cvs_in_progress =
      max 0 (((aggregate counts rows day).cvs_received : ℤ) -
        (aggregate counts rows day).cvs_parsed_success -
        (aggregate counts rows day).total_failed) := by
    simp only [aggregate]
  exact ⟨h, h ▸ le_max_left 0 _⟩

/-- C7: the renderer's status tier is determined from `success_rate`
alone by the fixed thresholds 95 / 85 / 70, with the boundary values
95.0, 94.9, 85.0, 84.9, 70.0 and 69.9 landing in the stated tiers. -/
theorem status_tier_thresholds (q : ℚ) :
    (95 ≤ q → status_text q = "Excellent") ∧
    (85 ≤ q → q < 95 → status_text q = "Good") ∧
    (70 ≤ q → q < 85 → status_text q = "Needs Attention") ∧
    (q < 70 → status_text q = "Critical") ∧
    status_text 95 = "Excellent" ∧ status_text (949 / 10) = "Good" ∧
    status_text 85 = "Good" ∧ status_text (849 / 10) = "Needs Attention" ∧
    status_text 70 = "Needs Attention" ∧ status_text (699 / 10) = "Critical" := by
  refine ⟨?_, ?_, ?_, ?_, ?_, ?_, ?_, ?_, ?_, ?_⟩
  · intro h; rw [status_text, if_pos h]
  · intro h1 h2
    rw [status_text, if_neg (not_le.mpr h2), if_pos h1]
  · intro h1 h2
    rw [status_text, if_neg (not_le.mpr (lt_of_lt_of_le h2 (by norm_num))),
      if_neg (not_le.mpr h2), if_pos h1]
  · intro h
    rw [status_text, if_neg (not_le.mpr (lt_of_lt_of_le h (by norm_num))),
      if_neg (not_le.mpr (lt_of_lt_of_le h (by norm_num))),
      if_neg (not_le.mpr h)]
  all_goals norm_num [status_text]

/-- Witness for C7 at the boundary 95.0. -/
theorem status_tier_thresholds_witness : status_text 95 = "Excellent" :=
  (status_tier_thresholds 95).1 (by norm_num)

/-- C2 (code bug): the spec's exit contract says a fully successful run
exits 0, but after a successful collection the summary logging
subscripts `report_data['activity_updated']` and
`report_data['activity_update_failed']`, keys the collector never puts
in the dictionary; the resulting `KeyError` reaches the generic handler
and the run exits 1 before the email is even attempted. The other arms
of the contract (invalid configuration → 1, collection failure → 1,
send failure → 1, interrupt → 130 ∉ {0, 1}) do hold. -/
theorem exit_contract_keyerror_bug :
    (∀ rd : ReportData, daily_report_main true (Except.ok rd) true false = 1) ∧
    (∀ (collect : Except DBErr ReportData) (sendOk : Bool),
      daily_report_main false collect sendOk false = 1) ∧
    (∀ sendOk : Bool,
      daily_report_main true (Except.error DBErr.err) sendOk false = 1) ∧
    (∀ rd : ReportData, daily_report_main true (Except.ok rd) false false = 1) ∧
    (∀ (configValid : Bool) (collect : Except DBErr ReportData) (sendOk : Bool),
      daily_report_main configValid collect sendOk true = 130) := by
  refine ⟨fun rd => ?_, fun collect sendOk => ?_, fun sendOk => ?_,
    fun rd => ?_, fun configValid collect sendOk => ?_⟩
  · simp +decide [daily_report_main, reportLookup]
  · rfl
  · rfl
  · simp +decide [daily_report_main, reportLookup]
  · rfl

/-- C5: whenever any of the connection or query steps of the metrics
collection fails, `get_yesterday_metrics` raises the distinguishable
database error instead of returning any metrics record,
`get_full_report_data` propagates it, and `main` treats the failed
collection as fatal (exit 1, no email attempted). -/
theorem collection_failure_is_fatal :
    (∀ (db : List LogRow) (day limit : ℕ) (o : YMOracle),
      (o.connectOk && o.countsOk && o.failedOk) = false →
      (get_yesterday_metrics db day limit o).1 = Except.error DBErr.err) ∧
    (∀ (db : List LogRow) (t : PipelineTables) (day limit now : ℕ)
        (oy : YMOracle) (op : PSOracle),
      (oy.connectOk && oy.countsOk && oy.failedOk) = false →
      (get_full_report_data db t day limit now oy op).1 = Except.error DBErr.err) ∧
    (∀ sendOk : Bool,
      daily_report_main true (Except.error DBErr.err) sendOk false = 1) := by
  refine ⟨?_, ?_, fun sendOk => rfl⟩
  · rintro db day limit ⟨c, k, f⟩ h
    cases c <;> cases k <;> cases f <;> simp_all [get_yesterday_metrics]
  · rintro db t day limit now ⟨c, k, f⟩ op h
    cases c <;> cases k <;> cases f <;>
      simp_all [get_full_report_data, get_yesterday_metrics]

/-- Witness for C5: a failing grouped-count query on an otherwise
healthy store yields the error outcome, and the run exits 1. -/
theorem collection_failure_is_fatal_witness :
    (get_yesterday_metrics [] 0 50
      { connectOk := true, countsOk := false, failedOk := true }).1 =
        Except.error DBErr.err ∧
    daily_report_main true (Except.error DBErr.err) true false = 1 :=
  ⟨collection_failure_is_fatal.1 [] 0 50
      { connectOk := true, countsOk := false, failedOk := true } rfl,
    collection_failure_is_fatal.2.2 true⟩

/-- C6: `log_cv_event` rejects an `event_type` outside the fixed
enumeration, and a `status` outside `success`/`failed`, by returning
`False` with the table unchanged; and every exception raised inside its
`try` block is caught and converted to the same `False` return, so the
call never propagates an exception to its caller. -/
theorem log_cv_event_validation_no_raise :
    (∀ (a : EventArgs) (db : List LogRow) (now : ℕ) (oc : DBOutcome),
      (a.event_type ∈ valid_events : Bool) = false →
      log_cv_event a db now oc = (false, db)) ∧
    (∀ (a : EventArgs) (db : List LogRow) (now : ℕ) (oc : DBOutcome),
      (a.status ∈ ["success", "failed"] : Bool) = false →
      log_cv_event a db now oc = (false, db)) ∧
    (∀ (a : EventArgs) (db : List LogRow) (now : ℕ) (oc : DBOutcome)
        (e : PyExc),
      log_cv_event_try a db now oc = Except.error e →
      log_cv_event a db now oc = (false, db)) := by
  refine ⟨fun a db now oc h => ?_, fun a db now oc h => ?_,
    fun a db now oc e h => ?_⟩
  · simp [log_cv_event, log_cv_event_try, h]
  · have h' : ¬a.status = "success" ∧ ¬a.status = "failed" := by
      simpa [not_or] using h
    by_cases hev : (a.event_type ∈ valid_events : Bool) = false
    · simp [log_cv_event, log_cv_event_try, hev]
    · simp [log_cv_event, log_cv_event_try, hev, h'.1, h'.2]
  · simp [log_cv_event, h]

/-- Witness for C6: `event_type = "bogus"` is rejected without raising
and nothing is persisted, even when the database itself would have
accepted the insert. -/
theorem log_cv_event_validation_no_raise_witness :
    log_cv_event
      { email := "x@example.com", event_type := "bogus", status := "success",
        user_id := none, error_message := none } [] 0 DBOutcome.ok =
      (false, []) :=
  log_cv_event_validation_no_raise.1
    { email := "x@example.com", event_type := "bogus", status := "success",
      user_id := none, error_message := none } [] 0 DBOutcome.ok (by decide)

/-- An all-success oracle for the metrics-collection phase. -/
def okYM : YMOracle := { connectOk := true, countsOk := true, failedOk := true }

/-- An all-success oracle for the pipeline-status phase. -/
def okPS : PSOracle :=
  { connectOk := true, unprocessedOk := true, batchesOk := true,
    pendingOk := true }

/-- Empty pipeline tables, for concrete runs. -/
def zeroTables : PipelineTables :=
  { unprocessed := 0, activeBatches := 0, pendingInsertions := 0 }

/-- C8 counterexample: on a fully successful run the report-data
collection opens two connections to the log store (one inside
`get_yesterday_metrics`, one inside `get_current_pipeline_status`),
not one. -/
theorem single_connection_counterexample :
    (get_full_report_data [] zeroTables 0 50 0 okYM
      okPS).2.count DBEvent.openConn = 2 ∧
    ¬ (get_full_report_data [] zeroTables 0 50 0 okYM
      okPS).2.count DBEvent.openConn = 1 := by
  constructor <;> decide

/-- C8 (amended): during one report run two connections are opened, one
per query function; on a fully successful run the trace is exactly the
two bracketed open-query-close phases, both completed before rendering,
and on every exit path — error paths included — each opened connection
is matched by a close. -/
theorem connection_per_query_balanced :
    (∀ (db : List LogRow) (t : PipelineTables) (day limit now : ℕ)
        (oy : YMOracle) (op : PSOracle),
      (get_full_report_data db t day limit now oy op).2.count DBEvent.openConn =
        (get_full_report_data db t day limit now oy op).2.count DBEvent.closeConn) ∧
    (∀ (db : List LogRow) (t : PipelineTables) (day limit now : ℕ),
      (get_full_report_data db t day limit now okYM okPS).2 =
        [DBEvent.openConn, DBEvent.query "groupedCounts",
          DBEvent.query "failedDetails", DBEvent.closeConn,
          DBEvent.openConn, DBEvent.query "unprocessedCvs",
          DBEvent.query "activeBatches", DBEvent.query "pendingInsertions",
          DBEvent.closeConn]) := by
  constructor
  · rintro db t day limit now ⟨cy, ky, fy⟩ ⟨cp, up, bp, pp⟩
    cases cy <;> cases ky <;> cases fy <;> cases cp <;> cases up <;>
      cases bp <;> cases pp <;> rfl
  · intro db t day limit now
    rfl

/-- C10: `log_bulk_events` converts every exception raised in its `try`
block into a plain `False` return; an empty event list returns `True`
with no connection opened and nothing persisted; and a non-empty list
is inserted wholesale, with no validation of `event_type` or `status`,
whenever the database accepts it. -/
theorem log_bulk_events_contract :
    (∀ (events : List EventArgs) (db : List LogRow) (now : ℕ)
        (oc : DBOutcome) (e : PyExc) (tr : List DBEvent),
      log_bulk_events_run events db now oc = (Except.error e, tr) →
      log_bulk_events events db now oc = (false, db, tr)) ∧
    (∀ (db : List LogRow) (now : ℕ) (oc : DBOutcome),
      log_bulk_events [] db now oc = (true, db, [])) ∧
    (∀ (events : List EventArgs) (db : List LogRow) (now : ℕ),
      events ≠ [] →
      log_bulk_events events db now DBOutcome.ok =
        (true, db ++ events.map (mkRow now),
          [DBEvent.openConn, DBEvent.query "executemany",
            DBEvent.closeConn])) := by
  refine ⟨fun events db now oc e tr h => ?_, fun db now oc => rfl,
    fun events db now h => ?_⟩
  · simp [log_bulk_events, h]
  · simp [log_bulk_events, log_bulk_events_run, h]

/-- Witness for C10: a single event with a bogus `event_type` and a
bogus `status` is persisted unvalidated when the database accepts the
insert. -/
theorem log_bulk_events_contract_witness :
    log_bulk_events
      [{ email := "a@example.com", event_type := "bogus", status := "weird",
          user_id := none, error_message := none }] [] 7 DBOutcome.ok =
      (true,
        [{ timestamp := 7, email := "a@example.com", event_type := "bogus",
            status := "weird", error_message := none, user_id := none }],
        [DBEvent.openConn, DBEvent.query "executemany", DBEvent.closeConn]) :=
  log_bulk_events_contract.2.2
    [{ email := "a@example.com", event_type := "bogus", status := "weird",
        user_id := none, error_message := none }] [] 7 (by decide)

/-- A log table holding one failed activity-tracking row — an event
kind counted by none of the three failure counters. -/
def exampleActivityDb : List LogRow :=
  [{ timestamp := 10, email := "a@example.com",
      event_type := "activity_update_failed", status := "failed",
      error_message := some "boom", user_id := none }]

/-- C9: `failed_emails` holds exactly the target day's rows with
`status = 'failed'` regardless of `event_type` — sound (every entry
comes from such a row), complete up to the cap (when the day's failed
rows fit under the cap every one of them appears), and ordered newest
first; on a table holding one failed `activity_update_failed` row the
failure counters stay zero while `failed_emails` has length one, so
`failed_emails` is not bounded by `total_failed`. -/
theorem failed_emails_any_event_type :
    (∀ (db : List LogRow) (day limit : ℕ) (f : FailedRow),
      f ∈ (yesterday_metrics db day limit).failed_emails →
      ∃ r : LogRow, r ∈ db ∧ dateOfTs r.timestamp = day ∧
        r.status = "failed" ∧ toFailedRow r = f) ∧
    (∀ (db : List LogRow) (day limit : ℕ) (r : LogRow),
      r ∈ db → dateOfTs r.timestamp = day → r.status = "failed" →
      (db.filter (isFailedOn day)).length ≤ limit →
      toFailedRow r ∈ (yesterday_metrics db day limit).failed_emails) ∧
    (∀ (db : List LogRow) (day limit : ℕ),
      ((yesterday_metrics db day limit).failed_emails).Pairwise
        (fun a b => b.timestamp ≤ a.timestamp)) ∧
    ((yesterday_metrics exampleActivityDb 0 50).total_failed = 0 ∧
      (yesterday_metrics exampleActivityDb 0 50).failed_emails =
        [{ email := "a@example.com", event_type := "activity_update_failed",
            error_message := some "boom", timestamp := 10 }]) ∧
    ((yesterday_metrics exampleActivityDb 0 50).total_failed <
      (yesterday_metrics exampleActivityDb 0 50).failed_emails.length) := by
  refine ⟨?_, ?_, ?_, ⟨by decide, by decide⟩, by decide⟩
  · intro db day limit f hf
    simp only [yesterday_metrics, aggregate_failed_emails, failedQuery] at hf
    obtain ⟨r, hrtake, hrf⟩ := List.mem_map.mp hf
    have hr1 : r ∈ List.insertionSort tsGe (db.filter (isFailedOn day)) :=
      List.mem_of_mem_take hrtake
    have hr2 : r ∈ db.filter (isFailedOn day) :=
      (List.perm_insertionSort tsGe _).mem_iff.mp hr1
    obtain ⟨hrdb, hp⟩ := List.mem_filter.mp hr2
    simp only [isFailedOn, Bool.and_eq_true, beq_iff_eq] at hp
    exact ⟨r, hrdb, hp.1, hp.2, hrf⟩
  · intro db day limit r hdb hday hstat hlen
    simp only [yesterday_metrics, aggregate_failed_emails, failedQuery]
    have hr2 : r ∈ db.filter (isFailedOn day) :=
      List.mem_filter.mpr ⟨hdb, by simp [isFailedOn, hday, hstat]⟩
    have hperm := List.perm_insertionSort tsGe (db.filter (isFailedOn day))
    have hlen2 :
        (List.insertionSort tsGe (db.filter (isFailedOn day))).length ≤ limit := by
      rw [hperm.length_eq]; exact hlen
    rw [List.take_of_length_le hlen2]
    exact List.mem_map_of_mem toFailedRow (hperm.mem_iff.mpr hr2)
  · intro db day limit
    simp only [yesterday_metrics, aggregate_failed_emails, failedQuery]
    refine List.pairwise_map.mpr ?_
    exact List.Pairwise.sublist (List.take_sublist _ _)
      (List.sorted_insertionSort tsGe (db.filter (isFailedOn day)))

/-- Witness for C9: the failed activity row itself appears in
`failed_emails` even though it contributes to no failure counter. -/
theorem failed_emails_any_event_type_witness :
    toFailedRow
      { timestamp := 10, email := "a@example.com",
        event_type := "activity_update_failed", status := "failed",
        error_message := some "boom", user_id := none } ∈
      (yesterday_metrics exampleActivityDb 0 50).failed_emails :=
  failed_emails_any_event_type.2.1 exampleActivityDb 0 50
    { timestamp := 10, email := "a@example.com",
      event_type := "activity_update_failed", status := "failed",
      error_message := some "boom", user_id := none }
    (by decide) (by decide) rfl (by decide)
